import Mathlib

/-!
Shallow embedding of `UefiBuild/MuBuild/MuGit.py`.

The external process runner (`RunCmd`) is modelled as an oracle that, given a
command string and an optional working directory, either raises (returns an
error) or returns the captured stdout together with an integer exit code.
Every embedded operation additionally returns the list of command strings it
issued (in order) and the list of messages it logged, so that claims about
call counts, short-circuiting and logging can be stated.
-/

/-- Python `str.strip()`: remove leading and trailing whitespace. -/
def String.strip (s : String) : String :=
  ⟨((s.data.dropWhile Char.isWhitespace).reverse.dropWhile
      Char.isWhitespace).reverse⟩

/-- Python `str.lower()`. -/
def String.lower (s : String) : String := ⟨s.data.map Char.toLower⟩

/-- Python `str.split(sep)` on a character list, for a one-character
separator: always yields at least one (possibly empty) piece. -/
def splitChar (sep : Char) : List Char → List (List Char)
  | [] => [[]]
  | c :: rest =>
    match splitChar sep rest with
    | [] => if c == sep then [[], []] else [[c]]
    | h :: t => if c == sep then [] :: h :: t else (c :: h) :: t

/-- Python `str.split("\n")`. -/
def String.splitNl (s : String) : List String :=
  (splitChar '\n' s.data).map fun l => ⟨l⟩

/-- Python `str.startswith("_")`. -/
def String.startsUnderscore (s : String) : Bool :=
  match s.data with
  | c :: _ => c == '_'
  | [] => false

namespace MuGit

/-- Errors raised by the external process runner (Python exceptions). -/
abbrev GitError := String

/-- The process-runner collaborator: `RunCmd(cmd, workingdir, outstream)`.
Returns captured stdout and the integer exit code, or raises. -/
structure Runner where
  run : String → Option String → Except GitError (String × Int)

/-- The filesystem interface: the `os.path.isdir` predicate. -/
structure FS where
  isDir : String → Bool

/-- `os.path.join` as used here (joining a directory and a simple name). -/
def pathJoin (a b : String) : String := a ++ "/" ++ b

/-- Embedding of the `ObjectDict` class: a dynamically-extensible attribute
bag.  `values` records the insertion order of every non-underscore-prefixed
key set (appended on every set, as the Python `__setattr__` does); `assigns`
records every assignment, with attribute lookup returning the latest. -/
structure ObjectDict (α : Type) where
  values : List String
  assigns : List (String × α)
deriving DecidableEq

/-- A fresh `ObjectDict()`. -/
def ObjectDict.empty {α : Type} : ObjectDict α := ⟨[], []⟩

/-- `ObjectDict.__setattr__`: keys not starting with an underscore are
appended to the order list; the assignment always happens. -/
def ObjectDict.setattr {α : Type} (d : ObjectDict α) (key : String) (v : α) :
    ObjectDict α :=
  { values := if key.startsUnderscore then d.values else d.values ++ [key]
    assigns := d.assigns ++ [(key, v)] }

/-- Attribute lookup on an `ObjectDict`: the most recent assignment wins. -/
def ObjectDict.getattr {α : Type} (d : ObjectDict α) (key : String) : Option α :=
  (d.assigns.reverse.find? (fun p => p.1 == key)).map (fun p => p.2)

/-- A run of the git layer: a value or a raised error, together with the
trace of issued command strings. -/
abbrev GitRes (α : Type) := Except (GitError × List String) (α × List String)

/-- One `RunCmd` invocation with output captured into a `StringIO` buffer:
returns (stdout, exit code) and records the command in the trace. -/
def runCmd (R : Runner) (cmd : String) (wd : Option String) :
    GitRes (String × Int) :=
  match R.run cmd wd with
  | .error e => .error (e, [cmd])
  | .ok oc => .ok (oc, [cmd])

/-- The command string of `Repo._get_url` for a given remote name. -/
def cfgCmd (remote : String) : String :=
  "git config --get remote." ++ remote ++ ".url"

/-- The command string of the remote name-list query in `Repo._get_remotes`. -/
def remoteCmd : String := "git remote"

/-- The working-tree short-status command of `Repo._get_dirty`. -/
def statusCmd : String := "git status --short"

/-- The unpushed-commits log command of `Repo._get_dirty`. -/
def unpushedCmd : String :=
  "git log --branches --not --remotes --decorate --oneline"

/-- The command string of `Repo._get_branch`. -/
def branchCmd : String := "git rev-parse --abbrev-ref HEAD"

/-- The command string of `Repo._get_head`. -/
def headCmd : String := "git rev-parse HEAD"

/-- The command string of `Repo._get_bare`. -/
def bareCmd : String := "git rev-parse --is-bare-repository"

/-- `Repo._get_url`: `git config --get remote.<remote>.url`, trimmed. -/
def get_url (R : Runner) (path remote : String) : GitRes String :=
  match runCmd R (cfgCmd remote) (some path) with
  | .error etr => .error etr
  | .ok ((out, _), tr) => .ok (out.strip, tr)

/-- The loop body of `Repo._get_remotes`: for each name in the remote list,
look up its url and store it (via `__setattr__`) in the accumulating bag. -/
def remotesLoop (R : Runner) (path : String)
    (acc : ObjectDict (ObjectDict String)) :
    List String → GitRes (ObjectDict (ObjectDict String))
  | [] => .ok (acc, [])
  | remote :: rest =>
    match get_url R path remote with
    | .error etr => .error etr
    | .ok (u, tr) =>
      let url := ObjectDict.empty.setattr "url" u
      match remotesLoop R path (acc.setattr remote url) rest with
      | .error (e, tr2) => .error (e, tr ++ tr2)
      | .ok (d, tr2) => .ok (d, tr ++ tr2)

/-- `Repo._get_remotes`: `git remote`, trim, split on newlines, then fetch
each remote's url into a fresh `ObjectDict`. -/
def get_remotes (R : Runner) (path : String) :
    GitRes (ObjectDict (ObjectDict String)) :=
  match runCmd R remoteCmd (some path) with
  | .error etr => .error etr
  | .ok ((out, _), tr) =>
    match remotesLoop R path ObjectDict.empty (out.strip.splitNl) with
    | .error (e, tr2) => .error (e, tr ++ tr2)
    | .ok (d, tr2) => .ok (d, tr ++ tr2)

/-- `Repo._get_dirty`: dirty if `git status --short` has non-empty trimmed
output; otherwise dirty iff the unpushed-commits log query has non-empty
trimmed output.  The second query is issued only when the first is empty. -/
def get_dirty (R : Runner) (path : String) : GitRes Bool :=
  match runCmd R statusCmd (some path) with
  | .error etr => .error etr
  | .ok ((out, _), tr) =>
    if out.strip.length > 0 then .ok (true, tr)
    else
      match runCmd R unpushedCmd (some path) with
      | .error (e, tr2) => .error (e, tr ++ tr2)
      | .ok ((out2, _), tr2) =>
        if out2.strip.length > 0 then .ok (true, tr ++ tr2)
        else .ok (false, tr ++ tr2)

/-- `Repo._get_branch`: trimmed output of `git rev-parse --abbrev-ref HEAD`. -/
def get_branch (R : Runner) (path : String) : GitRes String :=
  match runCmd R branchCmd (some path) with
  | .error etr => .error etr
  | .ok ((out, _), tr) => .ok (out.strip, tr)

/-- `Repo._get_head`: an `ObjectDict` whose `commit` attribute is the trimmed
output of `git rev-parse HEAD`. -/
def get_head (R : Runner) (path : String) : GitRes (ObjectDict String) :=
  match runCmd R headCmd (some path) with
  | .error etr => .error etr
  | .ok ((out, _), tr) =>
    .ok ((ObjectDict.empty : ObjectDict String).setattr "commit" out.strip, tr)

/-- `Repo._get_bare`: true iff the lower-cased trimmed output of
`git rev-parse --is-bare-repository` equals "true". -/
def get_bare (R : Runner) (path : String) : GitRes Bool :=
  match runCmd R bareCmd (some path) with
  | .error etr => .error etr
  | .ok ((out, _), tr) => .ok (out.strip.lower == "true", tr)

/-- `Repo._get_initalized` (sic): whether `<path>/.git` is a directory.  A
pure filesystem check; no external command issued. -/
def get_initalized (fs : FS) (path : String) : Bool :=
  fs.isDir (pathJoin path ".git")

/-- The state fields of the `Repo` class.  `path` is `self._path`; the other
fields are exactly the attributes set in `Repo.__init__` (the `initalized`
spelling is the source's). -/
structure Repo where
  path : String
  active_branch : Option String
  bare : Bool
  exists' : Bool
  remotes : ObjectDict (ObjectDict String)
  initalized : Bool
  url : Option String
  dirty : Bool
  head : Option (ObjectDict String)
deriving DecidableEq

/-- The construction-time defaults set at the top of `Repo.__init__`, before
`_update_from_git` runs. -/
def Repo.defaults (path : String) : Repo :=
  { path := path
    active_branch := none
    bare := true
    exists' := false
    remotes := ObjectDict.empty
    initalized := false
    url := none
    dirty := false
    head := none }

/-- The body of the `try` block in `Repo._update_from_git`: set `exists`,
then derive each field in source order, accumulating the command trace.  Any
raised error aborts the sequence and carries the trace up to that point. -/
def deriveFields (fs : FS) (R : Runner) (repo : Repo) : GitRes Repo :=
  let repo := { repo with exists' := true }
  match get_branch R repo.path with
  | .error etr => .error etr
  | .ok (b, tr1) =>
    match get_remotes R repo.path with
    | .error (e, tr) => .error (e, tr1 ++ tr)
    | .ok (rems, tr2) =>
      match get_head R repo.path with
      | .error (e, tr) => .error (e, tr1 ++ tr2 ++ tr)
      | .ok (h, tr3) =>
        match get_dirty R repo.path with
        | .error (e, tr) => .error (e, tr1 ++ tr2 ++ tr3 ++ tr)
        | .ok (d, tr4) =>
          match get_bare R repo.path with
          | .error (e, tr) => .error (e, tr1 ++ tr2 ++ tr3 ++ tr4 ++ tr)
          | .ok (br, tr5) =>
            .ok ({ repo with
                    active_branch := some b
                    remotes := rems
                    head := some h
                    dirty := d
                    bare := br
                    initalized := get_initalized fs repo.path },
                 tr1 ++ tr2 ++ tr3 ++ tr4 ++ tr5)

/-- The observable outcome of construction / refresh / clone: the resulting
handle (or the re-raised error), the commands issued, and the log messages. -/
structure DeriveOut where
  result : Except GitError Repo
  cmds : List String
  log : List String

/-- `Repo._update_from_git`: if the path is a directory, run the derivation
sequence; on an exception, log the repository path and the error and
re-raise.  If the path is not a directory, do nothing. -/
def update_from_git (fs : FS) (R : Runner) (repo : Repo) : DeriveOut :=
  if fs.isDir repo.path then
    match deriveFields fs R repo with
    | .ok (repo2, tr) => ⟨.ok repo2, tr, []⟩
    | .error (e, tr) => ⟨.error e, tr, ["GIT ERROR for " ++ repo.path, e]⟩
  else ⟨.ok repo, [], []⟩

/-- `Repo.__init__`: set the defaults, then `_update_from_git`. -/
def Repo.init (fs : FS) (R : Runner) (path : String) : DeriveOut :=
  update_from_git fs R (Repo.defaults path)

/-- The command string built by `Repo.submodule` (flags are the
space-joined argument list). -/
def submodCmd (command : String) (args : List String) : String :=
  "git submodule " ++ command ++ " " ++ String.intercalate " " args

/-- `Repo.submodule`: log a debug line, run `git submodule <command> <flags>`
in the repo's directory; return true on exit code 0, otherwise log the
trimmed captured output and return false.  A runner exception propagates. -/
def submodule (R : Runner) (path command : String) (args : List String) :
    Except GitError (Bool × List String × List String) :=
  let log0 := ["Calling command on submodule " ++ command ++ " with " ++
    String.intercalate " " args]
  let cmd := submodCmd command args
  match R.run cmd (some path) with
  | .error e => .error e
  | .ok (out, ret) =>
    if ret != 0 then .ok (false, [cmd], log0 ++ [out.strip])
    else .ok (true, [cmd], log0)

/-- The shallow clone command built by `Repo.clone_from(url, to_path,
shallow=True)`. -/
def shallowCloneCmd (url to_path : String) : String :=
  "git clone --depth 1 --shallow-submodules --recurse-submodules " ++
    url ++ " " ++ to_path ++ " "

/-- The non-shallow clone command built by `Repo.clone_from`. -/
def fullCloneCmd (url to_path : String) : String :=
  "git clone --recurse-submodules " ++ url ++ " " ++ to_path ++ " "

/-- `Repo.clone_from`: log a debug line, issue one clone command (shallow
variant when requested, no working directory, return code unchecked), then
construct and return a fresh `Repo` at the destination path.  An error
raised by the clone invocation or by the fresh construction propagates. -/
def clone_from (fs : FS) (R : Runner) (url to_path : String)
    (shallow : Bool) : DeriveOut :=
  let log0 := ["Cloning " ++ url ++ " into " ++ to_path]
  let cmd :=
    if shallow then shallowCloneCmd url to_path
    else fullCloneCmd url to_path
  match R.run cmd none with
  | .error e => ⟨.error e, [cmd], log0⟩
  | .ok _ =>
    let out := Repo.init fs R to_path
    ⟨out.result, cmd :: out.cmds, log0 ++ out.log⟩

/-- A runner that never raises: stdout and exit code are arbitrary functions
of the command and working directory. -/
def pureRunner (out : String → Option String → String)
    (code : String → Option String → Int) : Runner :=
  ⟨fun c wd => .ok (out c wd, code c wd)⟩

/-- The remote name list a non-raising runner yields: trimmed output of the
name-list query, split on newlines. -/
def remoteNames (out : String → Option String → String) (path : String) :
    List String :=
  (out remoteCmd (some path)).strip.splitNl

/-- The remote bag derivation yields under a non-raising runner. -/
def pureRemotes (out : String → Option String → String) (path : String) :
    ObjectDict (ObjectDict String) :=
  (remoteNames out path).foldl
    (fun acc r =>
      acc.setattr r (ObjectDict.empty.setattr "url" (out (cfgCmd r) (some path)).strip))
    ObjectDict.empty

/-- The dirty flag derivation yields under a non-raising runner. -/
def pureDirty (out : String → Option String → String) (path : String) : Bool :=
  if (out statusCmd (some path)).strip.length > 0 then true
  else decide ((out unpushedCmd (some path)).strip.length > 0)

/-- The commands the dirty derivation issues under a non-raising runner. -/
def pureDirtyCmds (out : String → Option String → String) (path : String) :
    List String :=
  if (out statusCmd (some path)).strip.length > 0 then [statusCmd]
  else [statusCmd, unpushedCmd]

/-- Every command the full derivation sequence issues under a non-raising
runner, in order. -/
def pureCmds (out : String → Option String → String) (path : String) :
    List String :=
  branchCmd :: remoteCmd ::
    ((remoteNames out path).map cfgCmd ++
      headCmd :: (pureDirtyCmds out path ++ [bareCmd]))

/-- The handle the full derivation yields under a non-raising runner. -/
def pureRepo (fs : FS) (out : String → Option String → String)
    (path : String) : Repo :=
  { path := path
    active_branch := some (out branchCmd (some path)).strip
    bare := (out bareCmd (some path)).strip.lower == "true"
    exists' := true
    remotes := pureRemotes out path
    initalized := get_initalized fs path
    url := none
    dirty := pureDirty out path
    head := some (ObjectDict.empty.setattr "commit" (out headCmd (some path)).strip) }

/-- Recognises clone invocations: command strings beginning "git clone". -/
def isCloneChars : List Char → Bool
  | 'g' :: 'i' :: 't' :: ' ' :: 'c' :: 'l' :: 'o' :: 'n' :: 'e' :: _ => true
  | _ => false

/-- A command string is a clone invocation iff it starts with "git clone". -/
def isCloneCmd (c : String) : Bool := isCloneChars c.data

/-- Substring containment, used to state which flags a command line holds. -/
def strContains (s sub : String) : Prop := ∃ l r, s = l ++ (sub ++ r)

/-- A filesystem on which every path is a directory. -/
def fsAll : FS := ⟨fun _ => true⟩

/-- A filesystem on which no path is a directory. -/
def fsNone : FS := ⟨fun _ => false⟩

/-- A runner whose every invocation raises. -/
def errRunner : Runner := ⟨fun _ _ => .error "boom"⟩

/-- Exit code 0 for every command. -/
def zeroCode : String → Option String → Int := fun _ _ => 0

/-- Exit code 2 for every command. -/
def twoCode : String → Option String → Int := fun _ _ => 2

/-- The same stdout for every command. -/
def constOut (s : String) : String → Option String → String := fun _ _ => s

/-- Stdout scenario: clean working tree but one unpushed local commit. -/
def outUnpushed : String → Option String → String := fun c _ =>
  if c == unpushedCmd then "abc1234 (branch) local commit" else ""

/-- Stdout scenario: non-empty short status. -/
def outStatus : String → Option String → String := fun c _ =>
  if c == statusCmd then " M file.txt" else ""

/-- Stdout scenario of the two-remote enumeration example. -/
def outTwoRemotes : String → Option String → String := fun c _ =>
  if c == remoteCmd then "origin\nupstream"
  else if c == cfgCmd "origin" then "https://a/x.git"
  else if c == cfgCmd "upstream" then "git@b:y.git"
  else ""

/-- The runner of the two-remote enumeration example. -/
def twoRemoteRunner : Runner := pureRunner outTwoRemotes zeroCode

theorem runCmd_pure (out : String → Option String → String)
    (code : String → Option String → Int) (cmd : String) (wd : Option String) :
    runCmd (pureRunner out code) cmd wd = .ok ((out cmd wd, code cmd wd), [cmd]) :=
  rfl

theorem get_branch_pure (out : String → Option String → String)
    (code : String → Option String → Int) (path : String) :
    get_branch (pureRunner out code) path =
      .ok ((out branchCmd (some path)).strip, [branchCmd]) :=
  rfl

theorem get_url_pure (out : String → Option String → String)
    (code : String → Option String → Int) (path remote : String) :
    get_url (pureRunner out code) path remote =
      .ok ((out (cfgCmd remote) (some path)).strip, [cfgCmd remote]) :=
  rfl

theorem get_head_pure (out : String → Option String → String)
    (code : String → Option String → Int) (path : String) :
    get_head (pureRunner out code) path =
      .ok (ObjectDict.empty.setattr "commit" (out headCmd (some path)).strip,
        [headCmd]) :=
  rfl

theorem get_bare_pure (out : String → Option String → String)
    (code : String → Option String → Int) (path : String) :
    get_bare (pureRunner out code) path =
      .ok ((out bareCmd (some path)).strip.lower == "true", [bareCmd]) :=
  rfl

theorem get_dirty_pure (out : String → Option String → String)
    (code : String → Option String → Int) (path : String) :
    get_dirty (pureRunner out code) path =
      .ok (pureDirty out path, pureDirtyCmds out path) := by
  simp only [get_dirty, runCmd_pure, pureDirty, pureDirtyCmds]
  split
  · rfl
  · split <;> simp_all

theorem remotesLoop_pure (out : String → Option String → String)
    (code : String → Option String → Int) (path : String)
    (l : List String) : ∀ acc : ObjectDict (ObjectDict String),
    remotesLoop (pureRunner out code) path acc l =
      .ok (l.foldl
            (fun acc r =>
              acc.setattr r
                (ObjectDict.empty.setattr "url" (out (cfgCmd r) (some path)).strip))
            acc,
           l.map cfgCmd) := by
  induction l with
  | nil => intro acc; rfl
  | cons r rest ih => intro acc; simp [remotesLoop, get_url_pure, ih]

theorem get_remotes_pure (out : String → Option String → String)
    (code : String → Option String → Int) (path : String) :
    get_remotes (pureRunner out code) path =
      .ok (pureRemotes out path, remoteCmd :: (remoteNames out path).map cfgCmd) := by
  simp [get_remotes, runCmd_pure, remotesLoop_pure, pureRemotes, remoteNames]

set_option maxRecDepth 4000 in
theorem deriveFields_pure (fs : FS) (out : String → Option String → String)
    (code : String → Option String → Int) (repo : Repo) :
    deriveFields fs (pureRunner out code) repo =
      .ok ({ repo with
              exists' := true
              active_branch := some (out branchCmd (some repo.path)).strip
              remotes := pureRemotes out repo.path
              head := some (ObjectDict.empty.setattr "commit"
                (out headCmd (some repo.path)).strip)
              dirty := pureDirty out repo.path
              bare := (out bareCmd (some repo.path)).strip.lower == "true"
              initalized := get_initalized fs repo.path },
           pureCmds out repo.path) := by
  unfold deriveFields
  dsimp only
  rw [get_branch_pure, get_remotes_pure, get_head_pure, get_dirty_pure,
    get_bare_pure]
  simp [pureCmds, List.append_assoc]

theorem init_pure (fs : FS) (out : String → Option String → String)
    (code : String → Option String → Int) (path : String)
    (h : fs.isDir path = true) :
    Repo.init fs (pureRunner out code) path =
      ⟨.ok (pureRepo fs out path), pureCmds out path, []⟩ := by
  rw [Repo.init, update_from_git]
  rw [show (Repo.defaults path).path = path from rfl, h, if_pos rfl,
    deriveFields_pure]
  rfl

theorem init_notdir (fs : FS) (R : Runner) (path : String)
    (h : fs.isDir path = false) :
    Repo.init fs R path = ⟨.ok (Repo.defaults path), [], []⟩ := by
  rw [Repo.init, update_from_git, show (Repo.defaults path).path = path from rfl,
    h]
  rfl

theorem splitNl_empty : ("" : String).splitNl = [""] := rfl

/-- A trimmed output is non-empty iff its length is positive. -/
theorem length_pos_iff_ne_empty (s : String) : 0 < s.length ↔ s ≠ "" := by
  cases s with
  | mk l =>
    rw [Ne, String.ext_iff, String.length_mk]
    exact List.length_pos

theorem isCloneChars_clone_prefixed (l : List Char) :
    isCloneChars ("git clone".data ++ l) = true := rfl

theorem isCloneChars_cfg_prefixed (l : List Char) :
    isCloneChars ("git co".data ++ l) = false := rfl

theorem isCloneCmd_cfg (r : String) : isCloneCmd (cfgCmd r) = false := by
  have h2 : ("git config --get remote." : String) =
      "git co" ++ "nfig --get remote." := rfl
  have h : (cfgCmd r).data =
      "git co".data ++
        ("nfig --get remote.".data ++ (r.data ++ ".url".data)) := by
    simp [cfgCmd, h2, String.data_append, List.append_assoc]
  rw [isCloneCmd, h]
  exact isCloneChars_cfg_prefixed _

theorem isCloneCmd_shallow (u p : String) :
    isCloneCmd (shallowCloneCmd u p) = true := by
  have h2 :
      ("git clone --depth 1 --shallow-submodules --recurse-submodules " :
        String) =
      "git clone" ++
        " --depth 1 --shallow-submodules --recurse-submodules " := rfl
  have h : (shallowCloneCmd u p).data =
      "git clone".data ++
        (" --depth 1 --shallow-submodules --recurse-submodules ".data ++
          (u.data ++ (" ".data ++ (p.data ++ " ".data)))) := by
    simp [shallowCloneCmd, h2, String.data_append, List.append_assoc]
  rw [isCloneCmd, h]
  exact isCloneChars_clone_prefixed _

theorem pureDirtyCmds_sub (out : String → Option String → String)
    (path : String) (c : String) (hc : c ∈ pureDirtyCmds out path) :
    c = statusCmd ∨ c = unpushedCmd := by
  rw [pureDirtyCmds] at hc
  split at hc <;> simp_all

theorem pureCmds_no_clone (out : String → Option String → String)
    (path : String) : ∀ c ∈ pureCmds out path, isCloneCmd c = false := by
  intro c hc
  rw [pureCmds] at hc
  simp only [List.mem_cons, List.mem_append, List.mem_map,
    List.mem_nil_iff, or_false] at hc
  rcases hc with rfl | rfl | ⟨r, _, rfl⟩ | rfl | hd | rfl
  · rfl
  · rfl
  · exact isCloneCmd_cfg r
  · rfl
  · rcases pureDirtyCmds_sub out path c hd with rfl | rfl
    · rfl
    · rfl
  · rfl

theorem init_countP_zero (fs : FS) (out : String → Option String → String)
    (code : String → Option String → Int) (p : String) :
    ((Repo.init fs (pureRunner out code) p).cmds).countP isCloneCmd = 0 := by
  cases h : fs.isDir p
  · rw [init_notdir _ _ _ h]
    rfl
  · rw [init_pure fs out code p h]
    exact List.countP_eq_zero.mpr (by
      intro a ha
      simp [pureCmds_no_clone out p a ha])

/-- Claim C1: for every repository handle whose path is a directory, the
derived dirty flag is true iff the trimmed short-status output is non-empty
or the trimmed unpushed-commits output is non-empty. -/
theorem mugit_C1 (fs : FS) (out : String → Option String → String)
    (code : String → Option String → Int) (path : String)
    (h : fs.isDir path = true) :
    ∃ repo cmds,
      Repo.init fs (pureRunner out code) path = ⟨.ok repo, cmds, []⟩ ∧
        (repo.dirty = true ↔
          ((out statusCmd (some path)).strip ≠ "" ∨
            (out unpushedCmd (some path)).strip ≠ "")) := by
  refine ⟨_, _, init_pure fs out code path h, ?_⟩
  show pureDirty out path = true ↔ _
  rw [pureDirty, ← length_pos_iff_ne_empty, ← length_pos_iff_ne_empty]
  split <;> simp_all

/-- Witness for C1: a directory whose short status is clean but which has an
unpushed local commit. -/
theorem mugit_C1_witness :
    fsAll.isDir "repo" = true ∧
    (∃ repo cmds,
      Repo.init fsAll (pureRunner outUnpushed zeroCode) "repo" =
          ⟨.ok repo, cmds, []⟩ ∧
        (repo.dirty = true ↔
          ((outUnpushed statusCmd (some "repo")).strip ≠ "" ∨
            (outUnpushed unpushedCmd (some "repo")).strip ≠ ""))) :=
  ⟨rfl, mugit_C1 fsAll outUnpushed zeroCode "repo" rfl⟩

/-- Claim C2: for a path that is not a directory, construction raises no
error, issues zero external invocations, and leaves every field at its
construction-time default. -/
theorem mugit_C2 (fs : FS) (R : Runner) (path : String)
    (h : fs.isDir path = false) :
    Repo.init fs R path = ⟨.ok (Repo.defaults path), [], []⟩ ∧
    (Repo.defaults path).exists' = false ∧
    (Repo.defaults path).bare = true ∧
    (Repo.defaults path).initalized = false ∧
    (Repo.defaults path).dirty = false ∧
    (Repo.defaults path).remotes = ObjectDict.empty ∧
    (Repo.defaults path).head = none ∧
    (Repo.defaults path).active_branch = none :=
  ⟨init_notdir fs R path h, rfl, rfl, rfl, rfl, rfl, rfl, rfl⟩

/-- Witness for C2: a non-directory path, with a runner that would raise on
any invocation — construction still succeeds with the defaults and an empty
command trace. -/
theorem mugit_C2_witness :
    fsNone.isDir "nodir" = false ∧
    (Repo.init fsNone errRunner "nodir" = ⟨.ok (Repo.defaults "nodir"), [], []⟩ ∧
    (Repo.defaults "nodir").exists' = false ∧
    (Repo.defaults "nodir").bare = true ∧
    (Repo.defaults "nodir").initalized = false ∧
    (Repo.defaults "nodir").dirty = false ∧
    (Repo.defaults "nodir").remotes = ObjectDict.empty ∧
    (Repo.defaults "nodir").head = none ∧
    (Repo.defaults "nodir").active_branch = none) :=
  ⟨rfl, mugit_C2 fsNone errRunner "nodir" rfl⟩

/-- Claim C3: when the short-status query returns non-empty trimmed output,
the dirty derivation returns true after exactly that one query; the
unpushed-commits query is never issued. -/
theorem mugit_C3 (R : Runner) (path o : String) (c : Int)
    (h1 : R.run statusCmd (some path) = .ok (o, c)) (h2 : o.strip ≠ "") :
    get_dirty R path = .ok (true, [statusCmd]) := by
  unfold get_dirty runCmd
  rw [h1]
  dsimp only
  rw [if_pos ((length_pos_iff_ne_empty o.strip).mpr h2)]

/-- Witness for C3: a runner with a modified file in the short status; the
trace holds the short-status command only. -/
theorem mugit_C3_witness :
    (pureRunner outStatus zeroCode).run statusCmd (some "p") =
        .ok (" M file.txt", 0) ∧
    (" M file.txt" : String).strip ≠ "" ∧
    get_dirty (pureRunner outStatus zeroCode) "p" = .ok (true, [statusCmd]) :=
  ⟨rfl, by decide, mugit_C3 (pureRunner outStatus zeroCode) "p" " M file.txt" 0
    rfl (by decide)⟩

/-- Claim C4: the bare flag is true iff the trimmed output of the
bare-repository query, compared case-insensitively, equals "true"; every
other string maps to false. -/
theorem mugit_C4 (out : String → Option String → String)
    (code : String → Option String → Int) (path : String) :
    get_bare (pureRunner out code) path =
      .ok ((out bareCmd (some path)).strip.lower == "true", [bareCmd]) ∧
    (get_bare (pureRunner out code) path = .ok (true, [bareCmd]) ↔
      (out bareCmd (some path)).strip.lower = "true") := by
  refine ⟨get_bare_pure out code path, ?_⟩
  rw [get_bare_pure]
  simp

/-- Claim C5: with remote names "origin" and "upstream" and their url
lookups, the resulting bag has exactly two entries, the right urls, and its
declared names iterate as ["origin", "upstream"] in insertion order. -/
theorem mugit_C5 :
    ∃ d tr, get_remotes twoRemoteRunner "p" = .ok (d, tr) ∧
      d.values = ["origin", "upstream"] ∧
      d.assigns.length = 2 ∧
      (d.getattr "origin").bind (fun u => u.getattr "url") =
        some "https://a/x.git" ∧
      (d.getattr "upstream").bind (fun u => u.getattr "url") =
        some "git@b:y.git" := by
  refine ⟨_, _, rfl, ?_, ?_, ?_, ?_⟩ <;> rfl

/-- Claim C6: when the remote name-list query has empty trimmed output,
remote enumeration yields one spurious entry named "" (not an empty bag). -/
theorem mugit_C6 (out : String → Option String → String)
    (code : String → Option String → Int) (path : String)
    (h : (out remoteCmd (some path)).strip = "") :
    get_remotes (pureRunner out code) path =
      .ok (ObjectDict.empty.setattr ""
             (ObjectDict.empty.setattr "url" (out (cfgCmd "") (some path)).strip),
           [remoteCmd, cfgCmd ""]) ∧
    (ObjectDict.empty.setattr ""
       (ObjectDict.empty.setattr "url"
         (out (cfgCmd "") (some path)).strip)).values = [""] := by
  constructor
  · rw [get_remotes_pure]
    simp [pureRemotes, remoteNames, h, splitNl_empty]
  · rfl

/-- Witness for C6: a runner reporting no remotes at all. -/
theorem mugit_C6_witness :
    ((constOut "") remoteCmd (some "p")).strip = "" ∧
    (get_remotes (pureRunner (constOut "") zeroCode) "p" =
      .ok (ObjectDict.empty.setattr ""
             (ObjectDict.empty.setattr "url"
               ((constOut "") (cfgCmd "") (some "p")).strip),
           [remoteCmd, cfgCmd ""]) ∧
    (ObjectDict.empty.setattr ""
       (ObjectDict.empty.setattr "url"
         ((constOut "") (cfgCmd "") (some "p")).strip)).values = [""]) :=
  ⟨rfl, mugit_C6 (constOut "") zeroCode "p" rfl⟩

/-- Claim C7: a submodule invocation returns true on exit code 0 and false
on any non-zero exit code (logging the captured output), and under a runner
that returns an exit code it never raises. -/
theorem mugit_C7 (out : String → Option String → String)
    (code : String → Option String → Int) (path command : String)
    (args : List String) :
    (∃ b tr lg,
      submodule (pureRunner out code) path command args = .ok (b, tr, lg)) ∧
    (code (submodCmd command args) (some path) = 0 →
      submodule (pureRunner out code) path command args =
        .ok (true, [submodCmd command args],
          ["Calling command on submodule " ++ command ++ " with " ++
            String.intercalate " " args])) ∧
    (code (submodCmd command args) (some path) ≠ 0 →
      submodule (pureRunner out code) path command args =
        .ok (false, [submodCmd command args],
          ["Calling command on submodule " ++ command ++ " with " ++
            String.intercalate " " args,
           (out (submodCmd command args) (some path)).strip])) := by
  refine ⟨?_, ?_, ?_⟩
  · by_cases h : code (submodCmd command args) (some path) = 0
    · refine ⟨true, [submodCmd command args],
        ["Calling command on submodule " ++ command ++ " with " ++
          String.intercalate " " args], ?_⟩
      simp [submodule, pureRunner, h]
    · refine ⟨false, [submodCmd command args],
        ["Calling command on submodule " ++ command ++ " with " ++
          String.intercalate " " args,
         (out (submodCmd command args) (some path)).strip], ?_⟩
      simp [submodule, pureRunner, h]
  · intro h
    simp [submodule, pureRunner, h]
  · intro h
    simp [submodule, pureRunner, h]

/-- Witness for C7: `Submodule("update", "--init")` with exit code 0 returns
true; with exit code 2 it returns false and the captured output is logged. -/
theorem mugit_C7_witness :
    zeroCode (submodCmd "update" ["--init"]) (some "p") = 0 ∧
    submodule (pureRunner (constOut "mod out") zeroCode) "p" "update"
        ["--init"] =
      .ok (true, [submodCmd "update" ["--init"]],
        ["Calling command on submodule " ++ "update" ++ " with " ++
          String.intercalate " " ["--init"]]) ∧
    twoCode (submodCmd "update" ["--init"]) (some "p") ≠ 0 ∧
    submodule (pureRunner (constOut "mod out") twoCode) "p" "update"
        ["--init"] =
      .ok (false, [submodCmd "update" ["--init"]],
        ["Calling command on submodule " ++ "update" ++ " with " ++
          String.intercalate " " ["--init"],
         ((constOut "mod out") (submodCmd "update" ["--init"])
           (some "p")).strip]) :=
  ⟨rfl,
   (mugit_C7 (constOut "mod out") zeroCode "p" "update" ["--init"]).2.1 rfl,
   by decide,
   (mugit_C7 (constOut "mod out") twoCode "p" "update" ["--init"]).2.2
     (by decide)⟩

/-- Claim C8: an exception during the derivation sequence is logged with the
repository path and re-raised unchanged; construction fails exactly when the
path is a directory and derivation raised. -/
theorem mugit_C8 (fs : FS) (R : Runner) (path : String) (e : GitError)
    (tr : List String) :
    (fs.isDir path = true →
      deriveFields fs R (Repo.defaults path) = .error (e, tr) →
      Repo.init fs R path =
        ⟨.error e, tr, ["GIT ERROR for " ++ path, e]⟩) ∧
    ((Repo.init fs R path).result = .error e → fs.isDir path = true) := by
  constructor
  · intro hdir hfail
    rw [Repo.init, update_from_git,
      show (Repo.defaults path).path = path from rfl, hdir, if_pos rfl, hfail]
  · intro hres
    cases hval : fs.isDir path
    · rw [init_notdir fs R path hval] at hres
      simp at hres
    · rfl

/-- Witness for C8: a runner whose first derivation query raises "boom" in a
directory; construction re-raises "boom" and logs the path. -/
theorem mugit_C8_witness :
    fsAll.isDir "p" = true ∧
    deriveFields fsAll errRunner (Repo.defaults "p") =
      .error ("boom", [branchCmd]) ∧
    Repo.init fsAll errRunner "p" =
      ⟨.error "boom", [branchCmd], ["GIT ERROR for " ++ "p", "boom"]⟩ :=
  ⟨rfl, rfl, (mugit_C8 fsAll errRunner "p" "boom" [branchCmd]).1 rfl rfl⟩

/-- Claim C9: `CloneFrom(url, path, shallow=true)` issues exactly one clone
invocation, whose command line holds the depth-1, shallow-submodules and
recurse-submodules flags together with url and path, and returns a handle
freshly constructed from path. -/
theorem mugit_C9 (fs : FS) (out : String → Option String → String)
    (code : String → Option String → Int) (url to_path : String) :
    clone_from fs (pureRunner out code) url to_path true =
      ⟨(Repo.init fs (pureRunner out code) to_path).result,
       shallowCloneCmd url to_path ::
         (Repo.init fs (pureRunner out code) to_path).cmds,
       ("Cloning " ++ url ++ " into " ++ to_path) ::
         (Repo.init fs (pureRunner out code) to_path).log⟩ ∧
    (shallowCloneCmd url to_path ::
      (Repo.init fs (pureRunner out code) to_path).cmds).countP isCloneCmd
      = 1 ∧
    strContains (shallowCloneCmd url to_path) "--depth 1" ∧
    strContains (shallowCloneCmd url to_path) "--shallow-submodules" ∧
    strContains (shallowCloneCmd url to_path) "--recurse-submodules" ∧
    strContains (shallowCloneCmd url to_path) url ∧
    strContains (shallowCloneCmd url to_path) to_path := by
  refine ⟨rfl, ?_, ?_, ?_, ?_, ?_, ?_⟩
  · simp [List.countP_cons, isCloneCmd_shallow, init_countP_zero]
  · refine ⟨"git clone ",
      " --shallow-submodules --recurse-submodules " ++
        (url ++ (" " ++ (to_path ++ " "))), ?_⟩
    rw [shallowCloneCmd,
      show ("git clone --depth 1 --shallow-submodules --recurse-submodules " :
          String) =
        "git clone " ++
          ("--depth 1" ++ " --shallow-submodules --recurse-submodules ")
        from rfl]
    simp only [String.append_assoc]
  · refine ⟨"git clone --depth 1 ",
      " --recurse-submodules " ++ (url ++ (" " ++ (to_path ++ " "))), ?_⟩
    rw [shallowCloneCmd,
      show ("git clone --depth 1 --shallow-submodules --recurse-submodules " :
          String) =
        "git clone --depth 1 " ++
          ("--shallow-submodules" ++ " --recurse-submodules ")
        from rfl]
    simp only [String.append_assoc]
  · refine ⟨"git clone --depth 1 --shallow-submodules ",
      " " ++ (url ++ (" " ++ (to_path ++ " "))), ?_⟩
    rw [shallowCloneCmd,
      show ("git clone --depth 1 --shallow-submodules --recurse-submodules " :
          String) =
        "git clone --depth 1 --shallow-submodules " ++
          ("--recurse-submodules" ++ " ")
        from rfl]
    simp only [String.append_assoc]
  · refine ⟨"git clone --depth 1 --shallow-submodules --recurse-submodules ",
      " " ++ (to_path ++ " "), ?_⟩
    rw [shallowCloneCmd]
    simp only [String.append_assoc]
  · refine
      ⟨"git clone --depth 1 --shallow-submodules --recurse-submodules " ++
        url ++ " ", " ", ?_⟩
    rw [shallowCloneCmd]
    simp only [String.append_assoc]

/-- Claim C10: every per-field derivation query discards the runner's exit
code: under any non-raising runner, each getter succeeds and its value is a
function of the trimmed stdout alone — the exit-code function `code` never
appears in the result. -/
theorem mugit_C10 (out : String → Option String → String)
    (code : String → Option String → Int) (path r : String) :
    get_branch (pureRunner out code) path =
      .ok ((out branchCmd (some path)).strip, [branchCmd]) ∧
    get_url (pureRunner out code) path r =
      .ok ((out (cfgCmd r) (some path)).strip, [cfgCmd r]) ∧
    get_head (pureRunner out code) path =
      .ok (ObjectDict.empty.setattr "commit" (out headCmd (some path)).strip,
        [headCmd]) ∧
    get_dirty (pureRunner out code) path =
      .ok (pureDirty out path, pureDirtyCmds out path) ∧
    get_bare (pureRunner out code) path =
      .ok ((out bareCmd (some path)).strip.lower == "true", [bareCmd]) :=
  ⟨get_branch_pure out code path, get_url_pure out code path r,
   get_head_pure out code path, get_dirty_pure out code path,
   get_bare_pure out code path⟩

end MuGit
